import Mathlib

/-!
Shallow embedding of the booking payment reconciliation subsystem of the
Staywise backend: the webhook route and its three event handlers, the
create-payment-intent and confirm-payment-intent operations, and the mock
payment helper.  Database side effects become explicit state passing over a
`DBState` record, and each operation additionally reports the list of
database operations it executed, so that "no database call is made" is a
statable property.  Calls into the external Stripe library are modelled by
outcome parameters (the library is not part of the repository).
-/

namespace Staywise

/-- A row of the properties table, restricted to the columns the payment
routes read. -/
structure Property where
  id : Nat
  title : String
  property_owner_id : Nat
  deriving DecidableEq, Repr

/-- A row of the booking_requests table, restricted to the columns the
payment subsystem reads or writes.  `payment_status` is `none` while unset;
monetary amounts written by the webhook handlers are `amount / 100` of the
event amount, kept exact as a rational. -/
structure Booking where
  id : Nat
  user_id : Nat
  property_id : Nat
  email : String
  payment_status : Option String
  stripe_payment_intent_id : Option String
  payment_amount : Option Rat
  payment_confirmed_at : Option Nat
  payment_failed_at : Option Nat
  payment_canceled_at : Option Nat
  payment_error_message : Option String
  deriving DecidableEq, Repr

/-- A row of the notifications table as inserted by the webhook handlers. -/
structure Notification where
  user_id : Nat
  type : String
  title : String
  message : String
  booking_id : Nat
  created_at : Nat
  deriving DecidableEq, Repr

/-- The mutable database state the payment subsystem touches. -/
structure DBState where
  bookings : List Booking
  properties : List Property
  notifications : List Notification
  deriving DecidableEq, Repr

/-- A database operation, recorded so that absence of database calls is
observable. -/
inductive DbOp where
  | updateBooking (bid : Nat)
  | selectBooking (bid : Nat)
  | insertNotif (user_id : Nat)
  deriving DecidableEq, Repr

/-- Fault injection for the persistence layer: `updateThrows` makes the first
UPDATE statement issued by a handler raise an exception, modelling a
transient store failure during the state write. -/
inductive DbFault where
  | noFault
  | updateThrows
  deriving DecidableEq, Repr

/-- The paymentIntent object carried by a webhook event, restricted to the
fields the handlers read.  `booking_id` is `metadata.booking_id`, `none` when
the metadata key is absent or empty (falsy). -/
structure PaymentIntentObj where
  id : String
  booking_id : Option Nat
  amount : Int
  last_payment_error_message : Option String
  deriving DecidableEq, Repr

/-- UPDATE booking_requests SET ... WHERE id = bid: apply `f` to every row
whose id matches. -/
def updateBookings (bs : List Booking) (bid : Nat) (f : Booking → Booking) : List Booking :=
  bs.map fun b => if b.id = bid then f b else b

/-- SELECT br.*, p.* FROM booking_requests br JOIN properties p ON
br.property_id = p.id WHERE br.id = bid. -/
def selectBookingJoinProperty (db : DBState) (bid : Nat) : List (Booking × Property) :=
  (db.bookings.filter fun b => b.id == bid).flatMap fun b =>
    (db.properties.filter fun p => p.id == b.property_id).map fun p => (b, p)

/-- Result of running one webhook event handler: the database state after the
handler returns, the database operations it issued, and whether an exception
escaped the handler (never, because each handler wraps its whole body in a
try/catch that only logs). -/
structure HandlerRun where
  db : DBState
  ops : List DbOp
  threw : Bool
  deriving DecidableEq, Repr

/-- Embedding of handlePaymentSuccess: unconditionally UPDATEs the booking row
to payment_status confirmed (with timestamp, intent id and amount/100), then
SELECTs the booking joined with its property and, when a row comes back,
INSERTs a payment_confirmed notification for the property owner.  The whole
body is wrapped in try/catch, so a thrown database error is swallowed. -/
def handlePaymentSuccess (db : DBState) (paymentIntent : PaymentIntentObj) (now : Nat)
    (fault : DbFault) : HandlerRun :=
  let body : HandlerRun :=
    match paymentIntent.booking_id with
    | none => ⟨db, [], false⟩
    | some bookingId =>
      match fault with
      | .updateThrows => ⟨db, [.updateBooking bookingId], true⟩
      | .noFault =>
        let db1 : DBState :=
          { db with bookings := updateBookings db.bookings bookingId fun b =>
              { b with payment_status := some "confirmed",
                       payment_confirmed_at := some now,
                       stripe_payment_intent_id := some paymentIntent.id,
                       payment_amount := some ((paymentIntent.amount : Rat) / 100) } }
        match selectBookingJoinProperty db1 bookingId with
        | [] => ⟨db1, [.updateBooking bookingId, .selectBooking bookingId], false⟩
        | bookingData :: _ =>
          let db2 : DBState :=
            { db1 with notifications := db1.notifications ++
                [{ user_id := bookingData.2.property_owner_id,
                   type := "payment_confirmed",
                   title := "Payment Confirmed",
                   message := "Payment has been confirmed for booking at " ++ bookingData.2.title,
                   booking_id := bookingId,
                   created_at := now }] }
          ⟨db2, [.updateBooking bookingId, .selectBooking bookingId,
                 .insertNotif bookingData.2.property_owner_id], false⟩
  { body with threw := false }

/-- Embedding of handlePaymentFailure: unconditionally UPDATEs the booking row
to payment_status failed (with timestamp, intent id and error message, the
message defaulting when falsy), then SELECTs and INSERTs a payment_failed
notification for the renter.  Errors are swallowed by the try/catch. -/
def handlePaymentFailure (db : DBState) (paymentIntent : PaymentIntentObj) (now : Nat)
    (fault : DbFault) : HandlerRun :=
  let body : HandlerRun :=
    match paymentIntent.booking_id with
    | none => ⟨db, [], false⟩
    | some bookingId =>
      match fault with
      | .updateThrows => ⟨db, [.updateBooking bookingId], true⟩
      | .noFault =>
        let errMsg : String :=
          match paymentIntent.last_payment_error_message with
          | some m => if m = "" then "Payment failed" else m
          | none => "Payment failed"
        let db1 : DBState :=
          { db with bookings := updateBookings db.bookings bookingId fun b =>
              { b with payment_status := some "failed",
                       payment_failed_at := some now,
                       stripe_payment_intent_id := some paymentIntent.id,
                       payment_error_message := some errMsg } }
        match selectBookingJoinProperty db1 bookingId with
        | [] => ⟨db1, [.updateBooking bookingId, .selectBooking bookingId], false⟩
        | bookingData :: _ =>
          let db2 : DBState :=
            { db1 with notifications := db1.notifications ++
                [{ user_id := bookingData.1.user_id,
                   type := "payment_failed",
                   title := "Payment Failed",
                   message := "Your payment for booking at " ++ bookingData.2.title ++
                              " has failed. Please try again.",
                   booking_id := bookingId,
                   created_at := now }] }
          ⟨db2, [.updateBooking bookingId, .selectBooking bookingId,
                 .insertNotif bookingData.1.user_id], false⟩
  { body with threw := false }

/-- Embedding of handlePaymentCanceled: unconditionally UPDATEs the booking
row to payment_status canceled with timestamp and intent id; no notification.
Errors are swallowed by the try/catch. -/
def handlePaymentCanceled (db : DBState) (paymentIntent : PaymentIntentObj) (now : Nat)
    (fault : DbFault) : HandlerRun :=
  let body : HandlerRun :=
    match paymentIntent.booking_id with
    | none => ⟨db, [], false⟩
    | some bookingId =>
      match fault with
      | .updateThrows => ⟨db, [.updateBooking bookingId], true⟩
      | .noFault =>
        let db1 : DBState :=
          { db with bookings := updateBookings db.bookings bookingId fun b =>
              { b with payment_status := some "canceled",
                       payment_canceled_at := some now,
                       stripe_payment_intent_id := some paymentIntent.id } }
        ⟨db1, [.updateBooking bookingId], false⟩
  { body with threw := false }

/-- Observable outcome of one POST to the webhook route: HTTP status, the
database state afterwards, and the database operations performed. -/
structure WebhookRun where
  status : Nat
  db : DBState
  ops : List DbOp
  deriving DecidableEq, Repr

/-- Embedding of the webhook route.  `signatureValid` is the outcome of
stripe.webhooks.constructEvent over the raw body: when it throws the route
answers 400 at once.  Otherwise the event type is dispatched to the matching
handler; the route answers 500 only if the handler lets an exception escape
(which the handlers never do), and 200 otherwise. -/
def webhookPost (signatureValid : Bool) (eventType : String) (paymentIntent : PaymentIntentObj)
    (db : DBState) (now : Nat) (fault : DbFault) : WebhookRun :=
  match signatureValid with
  | false => ⟨400, db, []⟩
  | true =>
    let run : HandlerRun :=
      if eventType = "payment_intent.succeeded" then
        handlePaymentSuccess db paymentIntent now fault
      else if eventType = "payment_intent.payment_failed" then
        handlePaymentFailure db paymentIntent now fault
      else if eventType = "payment_intent.canceled" then
        handlePaymentCanceled db paymentIntent now fault
      else ⟨db, [], false⟩
    match run.threw with
    | true => ⟨500, run.db, run.ops⟩
    | false => ⟨200, run.db, run.ops⟩

/-- The paymentIntentData record the gateway builds for
stripe.paymentIntents.create, restricted to the fields the source sets.
Math.round is the identity on the integer amounts modelled here. -/
structure PaymentIntentData where
  amount : Int
  currency : String
  metadata_booking_id : String
  metadata_type : String
  receipt_email : String
  payment_method : Option String
  confirmation_method : Option String
  automatic_payment_methods : Bool
  deriving DecidableEq, Repr

/-- Builds paymentIntentData exactly as createPaymentIntent does: with a
payment method the intent is set to automatic confirmation; without one,
automatic payment methods are enabled instead. -/
def buildPaymentIntentData (amount : Int) (bookingId : Nat) (userEmail : String)
    (paymentMethodId : Option String) : PaymentIntentData :=
  let base : PaymentIntentData :=
    { amount := amount,
      currency := "usd",
      metadata_booking_id := toString bookingId,
      metadata_type := "booking_advance_payment",
      receipt_email := userEmail,
      payment_method := none,
      confirmation_method := none,
      automatic_payment_methods := false }
  match paymentMethodId with
  | some pm => { base with payment_method := some pm, confirmation_method := some "automatic" }
  | none => { base with automatic_payment_methods := true }

/-- Outcome of the external stripe.paymentIntents.create call: either an
intent (id and client secret) or a thrown error with its message. -/
inductive StripeCreateOutcome where
  | ok (intentId : String) (clientSecret : String)
  | err (message : String)
  deriving DecidableEq, Repr

/-- Return value of the gateway function createPaymentIntent. -/
structure GatewayCreateResult where
  success : Bool
  client_secret : Option String
  payment_intent_id : Option String
  error : Option String
  deriving DecidableEq, Repr

/-- Embedding of the gateway function createPaymentIntent: builds the intent
data and calls the processor; on a thrown processor error it returns
success false with the raw error message (no translation to any internal
error code happens here). -/
def createPaymentIntent (amount : Int) (bookingId : Nat) (userEmail : String)
    (paymentMethodId : Option String)
    (stripeCreate : PaymentIntentData → StripeCreateOutcome) : GatewayCreateResult :=
  match stripeCreate (buildPaymentIntentData amount bookingId userEmail paymentMethodId) with
  | .ok intentId clientSecret =>
    { success := true, client_secret := some clientSecret,
      payment_intent_id := some intentId, error := none }
  | .err message =>
    { success := false, client_secret := none,
      payment_intent_id := none, error := some message }

/-- JS truthiness of an optional numeric request field: absent, null and 0
are falsy. -/
def truthyNat : Option Nat → Bool
  | none => false
  | some n => !(n == 0)

/-- JS truthiness of an optional integer request field: absent, null and 0
are falsy. -/
def truthyInt : Option Int → Bool
  | none => false
  | some i => !(i == 0)

/-- Observable outcome of one POST to the create-payment-intent route: HTTP
status, the JSON fields of the response, the database operations performed,
and the amount handed to the gateway when the gateway was called. -/
structure CreateIntentRun where
  status : Nat
  error : Option String
  message : Option String
  client_secret : Option String
  payment_intent_id : Option String
  ops : List DbOp
  gatewayAmount : Option Int
  deriving DecidableEq, Repr

/-- Embedding of the create-payment-intent route: reject falsy booking_id or
amount with 400 before any database access; SELECT the booking by id and
requesting user; 404 when none; otherwise call the gateway with the request
amount as given, answering 400 with STRIPE_API_KEY_ERROR only when the
gateway result error is exactly that string, 500 with a generic message on
any other failure, and 200 with secret and intent id on success. -/
def createPaymentIntentRoute (db : DBState) (userId : Nat) (booking_id : Option Nat)
    (amount : Option Int) (payment_method_id : Option String)
    (stripeCreate : PaymentIntentData → StripeCreateOutcome) : CreateIntentRun :=
  if !truthyNat booking_id || !truthyInt amount then
    { status := 400, error := some "Missing required fields",
      message := some "Booking ID and amount are required",
      client_secret := none, payment_intent_id := none, ops := [], gatewayAmount := none }
  else
    match booking_id, amount with
    | some bid, some amt =>
      match db.bookings.filter (fun b => b.id == bid && b.user_id == userId) with
      | [] =>
        { status := 404, error := some "Booking not found", message := none,
          client_secret := none, payment_intent_id := none,
          ops := [.selectBooking bid], gatewayAmount := none }
      | bookingData :: _ =>
        let result := createPaymentIntent amt bid bookingData.email payment_method_id stripeCreate
        if result.success = false then
          if result.error = some "STRIPE_API_KEY_ERROR" then
            { status := 400, error := some "STRIPE_API_KEY_ERROR",
              message := some "Payment service temporarily unavailable",
              client_secret := none, payment_intent_id := none,
              ops := [.selectBooking bid], gatewayAmount := some amt }
          else
            { status := 500, error := some "Payment intent creation failed",
              message := result.error, client_secret := none, payment_intent_id := none,
              ops := [.selectBooking bid], gatewayAmount := some amt }
        else
          { status := 200, error := none, message := none,
            client_secret := result.client_secret,
            payment_intent_id := result.payment_intent_id,
            ops := [.selectBooking bid], gatewayAmount := some amt }
    | _, _ =>
      { status := 400, error := some "Missing required fields",
        message := some "Booking ID and amount are required",
        client_secret := none, payment_intent_id := none, ops := [], gatewayAmount := none }

/-- Outcome of the external stripe.paymentIntents.confirm call: the confirmed
intent with its processor status and amount, or a thrown error. -/
inductive StripeConfirmOutcome where
  | ok (status : String) (amount : Int)
  | err (message : String)
  deriving DecidableEq, Repr

/-- Return value of the gateway function confirmPaymentIntent. -/
structure GatewayConfirmResult where
  success : Bool
  status : Option String
  amount : Option Rat
  error : Option String
  deriving DecidableEq, Repr

/-- Embedding of the gateway function confirmPaymentIntent: success is the
comparison of the processor status with the string succeeded; any other
status is returned as a non-success result that still carries the processor
status and amount and has no error field; a thrown processor error yields
success false with the raw message. -/
def confirmPaymentIntent (paymentIntentId : String) (paymentMethodId : String)
    (stripeConfirm : StripeConfirmOutcome) : GatewayConfirmResult :=
  match stripeConfirm with
  | .ok status amount =>
    { success := status == "succeeded", status := some status,
      amount := some ((amount : Rat) / 100), error := none }
  | .err message =>
    { success := false, status := none, amount := none, error := some message }

/-- The test-card table of processMockPayment. -/
def testCards (cardNumber : String) : Option (Bool × String) :=
  if cardNumber = "4242424242424242" then some (true, "Payment succeeded")
  else if cardNumber = "4000000000000002" then some (false, "Card declined")
  else if cardNumber = "4000000000009995" then some (false, "Insufficient funds")
  else none

/-- Return value of processMockPayment. -/
structure MockPaymentResult where
  success : Bool
  message : String
  payment_reference : Option String
  amount : Int
  deriving DecidableEq, Repr

/-- Embedding of processMockPayment: looks the card up in the test-card table
and falls back to the 4242424242424242 entry when the lookup misses; on
success the reference is MOCK_ followed by Date.now(), passed here as `now`,
and the amount is returned in full, otherwise the reference is null and the
amount is 0. -/
def processMockPayment (testCardNumber : String) (amount : Int) (now : Nat) : MockPaymentResult :=
  let result :=
    (testCards testCardNumber).getD ((testCards "4242424242424242").getD (true, "Payment succeeded"))
  { success := result.1,
    message := result.2,
    payment_reference := if result.1 then some ("MOCK_" ++ toString now) else none,
    amount := if result.1 then amount else 0 }

/-- A property row used by the concrete scenarios below. -/
def sampleProperty : Property :=
  { id := 3, title := "Lakeview Villa", property_owner_id := 77 }

/-- A booking whose payment already reached the terminal status confirmed,
with intent pi_abc stored. -/
def confirmedBooking : Booking :=
  { id := 42, user_id := 9, property_id := 3, email := "renter@example.com",
    payment_status := some "confirmed", stripe_payment_intent_id := some "pi_abc",
    payment_amount := some 50, payment_confirmed_at := some 100,
    payment_failed_at := none, payment_canceled_at := none, payment_error_message := none }

/-- Database holding the confirmed booking. -/
def dbConfirmed : DBState :=
  { bookings := [confirmedBooking], properties := [sampleProperty], notifications := [] }

/-- A booking with no payment activity yet. -/
def unsetBooking : Booking :=
  { id := 42, user_id := 9, property_id := 3, email := "renter@example.com",
    payment_status := none, stripe_payment_intent_id := none,
    payment_amount := none, payment_confirmed_at := none,
    payment_failed_at := none, payment_canceled_at := none, payment_error_message := none }

/-- Database holding the unset booking. -/
def dbUnset : DBState :=
  { bookings := [unsetBooking], properties := [sampleProperty], notifications := [] }

/-- A booking whose stored intent reference is pi_old. -/
def staleBooking : Booking :=
  { id := 7, user_id := 9, property_id := 3, email := "renter@example.com",
    payment_status := some "submitted", stripe_payment_intent_id := some "pi_old",
    payment_amount := none, payment_confirmed_at := none,
    payment_failed_at := none, payment_canceled_at := none, payment_error_message := none }

/-- Database holding the stale-intent booking. -/
def dbStale : DBState :=
  { bookings := [staleBooking], properties := [sampleProperty], notifications := [] }

/-- A payment_failed event for booking 42 referencing intent pi_other. -/
def failedEvt : PaymentIntentObj :=
  { id := "pi_other", booking_id := some 42, amount := 5000,
    last_payment_error_message := some "Card declined" }

/-- A succeeded event for booking 42 referencing intent pi_abc. -/
def succeededEvt : PaymentIntentObj :=
  { id := "pi_abc", booking_id := some 42, amount := 5000,
    last_payment_error_message := none }

/-- A succeeded event for booking 7 referencing the newer intent pi_new. -/
def newIntentEvt : PaymentIntentObj :=
  { id := "pi_new", booking_id := some 7, amount := 5000,
    last_payment_error_message := none }

/-- Claim C1: the claim states that once a booking payment status is terminal,
an event mapping to a different terminal status performs no mutation.  The
handlers have no terminal-state guard: delivering a payment_failed event for
the already-confirmed booking 42 overwrites its payment status to failed and
its stored intent reference, so the code contradicts the claim. -/
theorem c1_terminal_state_regression :
    ((webhookPost true "payment_intent.payment_failed" failedEvt dbConfirmed 200
        .noFault).db.bookings.find? fun b => b.id == 42)
      = some { confirmedBooking with
                 payment_status := some "failed",
                 payment_failed_at := some 200,
                 stripe_payment_intent_id := some "pi_other",
                 payment_error_message := some "Card declined" } := by
  decide

/-- Claim C2: the claim states that applying the identical success event twice
yields the same booking payment state and at most one notification in total.
The booking state is indeed the same after the duplicate delivery, but the
notification INSERT is unconditional, so the duplicate inserts a second
property-owner notification, contradicting the claim. -/
theorem c2_duplicate_delivery_double_notification :
    (webhookPost true "payment_intent.succeeded" succeededEvt dbUnset 100 .noFault).db.notifications.length = 1
    ∧ (webhookPost true "payment_intent.succeeded" succeededEvt
        (webhookPost true "payment_intent.succeeded" succeededEvt dbUnset 100 .noFault).db
        100 .noFault).db.bookings
      = (webhookPost true "payment_intent.succeeded" succeededEvt dbUnset 100 .noFault).db.bookings
    ∧ (webhookPost true "payment_intent.succeeded" succeededEvt
        (webhookPost true "payment_intent.succeeded" succeededEvt dbUnset 100 .noFault).db
        100 .noFault).db.notifications.length = 2 :=
  ⟨by decide, rfl, by decide⟩

/-- Claim C3: the claim states that an event whose intent id does not match
the stored intent reference produces no mutation.  The handlers never compare
intent ids: a succeeded event for pi_new applied to booking 7, which stores
pi_old, overwrites status, intent reference, amount and timestamp,
contradicting the claim. -/
theorem c3_stale_intent_clobbers :
    (((webhookPost true "payment_intent.succeeded" newIntentEvt dbStale 300
        .noFault).db.bookings.find? fun b => b.id == 7).map fun b =>
        (b.payment_status, b.stripe_payment_intent_id, b.payment_confirmed_at,
          b.payment_amount.isSome))
      = some (some "confirmed", some "pi_new", some 300, true) := by
  decide

/-- Claim C4: the claim states that an internal error while applying a tracked
event makes the endpoint answer non-2xx so the processor retries.  The
handler swallows the thrown UPDATE failure in its own catch block, so the
route answers 200 although no state was applied, contradicting the claim. -/
theorem c4_store_failure_still_acknowledged :
    webhookPost true "payment_intent.succeeded" succeededEvt dbUnset 100 .updateThrows
      = ⟨200, dbUnset, [.updateBooking 42]⟩ := by
  decide

/-- Claim C5: a webhook request that fails signature verification is answered
400, the database state is untouched, and no database operation at all is
performed, whatever the event carried. -/
theorem c5_signature_gate (eventType : String) (paymentIntent : PaymentIntentObj)
    (db : DBState) (now : Nat) (fault : DbFault) :
    webhookPost false eventType paymentIntent db now fault = ⟨400, db, []⟩ :=
  rfl

/-- Claim C6: the claim states that an intent is created only when the booking
payment status is unset or failed, and that confirmed, canceled or submitted
bookings are refused.  The route only checks existence and ownership, never
the payment status: the owner of the already-confirmed booking 42 obtains a
fresh intent with status 200, contradicting the claim. -/
theorem c6_confirmed_booking_gets_new_intent :
    (createPaymentIntentRoute dbConfirmed 9 (some 42) (some 5000) none
        (fun _ => .ok "pi_next" "secret_next")).status = 200
    ∧ (createPaymentIntentRoute dbConfirmed 9 (some 42) (some 5000) none
        (fun _ => .ok "pi_next" "secret_next")).payment_intent_id = some "pi_next" := by
  decide

/-- Claim C7: the claim states that invalid processor credentials during
intent creation surface as the distinguishable STRIPE_API_KEY_ERROR code.
The gateway function createPaymentIntent returns the raw processor message as
its error, never that code (only verifyPayment translates it), so the route
branch testing for the code is dead and the caller receives the generic 500
instead, contradicting the claim. -/
theorem c7_api_key_error_not_distinguished :
    (createPaymentIntent 5000 42 "renter@example.com" none
        (fun _ => .err "Invalid API Key provided: sk_test_4eC3")).error
      = some "Invalid API Key provided: sk_test_4eC3"
    ∧ (createPaymentIntentRoute dbConfirmed 9 (some 42) (some 5000) none
        (fun _ => .err "Invalid API Key provided: sk_test_4eC3")).status = 500
    ∧ (createPaymentIntentRoute dbConfirmed 9 (some 42) (some 5000) none
        (fun _ => .err "Invalid API Key provided: sk_test_4eC3")).error
      = some "Payment intent creation failed" := by
  decide

/-- Claim C8: the gateway function confirmPaymentIntent reports success
exactly when the processor reports the intent status succeeded; every other
processor status is returned as a non-success result that carries the
processor status string and no error, and a thrown processor error is the
only non-success without a status. -/
theorem c8_confirm_success_iff_processor_succeeded
    (paymentIntentId paymentMethodId status message : String) (amount : Int) :
    ((confirmPaymentIntent paymentIntentId paymentMethodId (.ok status amount)).success = true
        ↔ status = "succeeded")
    ∧ (confirmPaymentIntent paymentIntentId paymentMethodId (.ok status amount)).status = some status
    ∧ (confirmPaymentIntent paymentIntentId paymentMethodId (.ok status amount)).error = none
    ∧ (confirmPaymentIntent paymentIntentId paymentMethodId (.err message)).success = false := by
  refine ⟨?_, rfl, rfl, rfl⟩
  simp [confirmPaymentIntent]

/-- Claim C9: a card number that is none of the three known test cards makes
processMockPayment behave exactly as for the success card 4242424242424242:
same result, success true, a non-null payment reference, and the full
amount. -/
theorem c9_unknown_card_defaults_to_success (testCardNumber : String) (amount : Int) (now : Nat)
    (h1 : testCardNumber ≠ "4242424242424242")
    (h2 : testCardNumber ≠ "4000000000000002")
    (h3 : testCardNumber ≠ "4000000000009995") :
    processMockPayment testCardNumber amount now = processMockPayment "4242424242424242" amount now
    ∧ (processMockPayment testCardNumber amount now).success = true
    ∧ (processMockPayment testCardNumber amount now).payment_reference ≠ none
    ∧ (processMockPayment testCardNumber amount now).amount = amount := by
  simp [processMockPayment, testCards, h1, h2, h3]

/-- Witness for claim C9 at the concrete unrecognized card 1234123412341234. -/
theorem c9_unknown_card_defaults_to_success_witness :
    processMockPayment "1234123412341234" 700 5 = processMockPayment "4242424242424242" 700 5
    ∧ (processMockPayment "1234123412341234" 700 5).success = true
    ∧ (processMockPayment "1234123412341234" 700 5).payment_reference ≠ none
    ∧ (processMockPayment "1234123412341234" 700 5).amount = 700 :=
  c9_unknown_card_defaults_to_success "1234123412341234" 700 5
    (by decide) (by decide) (by decide)

/-- Claim C10: an amount of 0 or an absent amount is rejected by the
create-payment-intent route with the 400 missing-required-fields error before
any database operation, while a negative amount passes the truthiness guard
and, once the booking lookup succeeds, is forwarded unchanged into the
gateway call and into the intent data built for the processor. -/
theorem c10_amount_validation (db : DBState) (userId bid : Nat) (amount : Int)
    (pm : Option String) (stripeCreate : PaymentIntentData → StripeCreateOutcome)
    (bookingData : Booking) (rest : List Booking)
    (hbid : bid ≠ 0) (hneg : amount < 0)
    (hfound : db.bookings.filter (fun b => b.id == bid && b.user_id == userId)
      = bookingData :: rest) :
    (createPaymentIntentRoute db userId (some bid) (some 0) pm stripeCreate).status = 400
    ∧ (createPaymentIntentRoute db userId (some bid) (some 0) pm stripeCreate).error
      = some "Missing required fields"
    ∧ (createPaymentIntentRoute db userId (some bid) (some 0) pm stripeCreate).ops = []
    ∧ (createPaymentIntentRoute db userId (some bid) none pm stripeCreate).status = 400
    ∧ (createPaymentIntentRoute db userId (some bid) none pm stripeCreate).ops = []
    ∧ (createPaymentIntentRoute db userId (some bid) (some amount) pm stripeCreate).gatewayAmount
      = some amount
    ∧ (buildPaymentIntentData amount bid bookingData.email pm).amount = amount := by
  have hne : amount ≠ 0 := by omega
  have h1 : truthyNat (some bid) = true := by simp [truthyNat, hbid]
  have h2 : truthyInt (some amount) = true := by simp [truthyInt, hne]
  refine ⟨?_, ?_, ?_, ?_, ?_, ?_, ?_⟩
  · simp [createPaymentIntentRoute, truthyInt]
  · simp [createPaymentIntentRoute, truthyInt]
  · simp [createPaymentIntentRoute, truthyInt]
  · simp [createPaymentIntentRoute, truthyInt]
  · simp [createPaymentIntentRoute, truthyInt]
  · simp only [createPaymentIntentRoute, h1, h2, hfound, Bool.not_true, Bool.or_self,
      Bool.false_eq_true, if_false]
    split
    · split <;> rfl
    · rfl
  · cases pm <;> rfl

/-- A booking with no payment activity used for the C10 witness. -/
def ownedBooking5 : Booking :=
  { id := 5, user_id := 9, property_id := 3, email := "renter@example.com",
    payment_status := none, stripe_payment_intent_id := none,
    payment_amount := none, payment_confirmed_at := none,
    payment_failed_at := none, payment_canceled_at := none, payment_error_message := none }

/-- Database holding booking 5 for the C10 witness. -/
def dbOwned5 : DBState :=
  { bookings := [ownedBooking5], properties := [sampleProperty], notifications := [] }

/-- Witness for claim C10 at booking 5 owned by user 9 with amount -500. -/
theorem c10_amount_validation_witness :
    (createPaymentIntentRoute dbOwned5 9 (some 5) (some 0) none
        (fun _ => .ok "pi_w" "sec_w")).status = 400
    ∧ (createPaymentIntentRoute dbOwned5 9 (some 5) (some 0) none
        (fun _ => .ok "pi_w" "sec_w")).error = some "Missing required fields"
    ∧ (createPaymentIntentRoute dbOwned5 9 (some 5) (some 0) none
        (fun _ => .ok "pi_w" "sec_w")).ops = []
    ∧ (createPaymentIntentRoute dbOwned5 9 (some 5) none none
        (fun _ => .ok "pi_w" "sec_w")).status = 400
    ∧ (createPaymentIntentRoute dbOwned5 9 (some 5) none none
        (fun _ => .ok "pi_w" "sec_w")).ops = []
    ∧ (createPaymentIntentRoute dbOwned5 9 (some 5) (some (-500)) none
        (fun _ => .ok "pi_w" "sec_w")).gatewayAmount = some (-500)
    ∧ (buildPaymentIntentData (-500) 5 ownedBooking5.email none).amount = -500 :=
  c10_amount_validation dbOwned5 9 5 (-500) none (fun _ => .ok "pi_w" "sec_w")
    ownedBooking5 [] (by decide) (by decide) (by decide)

end Staywise
